import Mathlib

/-!
Verification of the FluffOS build monitor (src/tools/fluffos_build_monitor.py).

The monitor's state machine, text classifiers, and backoff scheduler are
embedded as executable Lean definitions operating on `List Char` text.
Real time and the external process-output source are inputs: each call to
`check_build_status` receives the elapsed duration in seconds and the fetch
result (stdout, stderr, completed flag) that `_run_bash_output` would have
produced.

The regular-expression patterns used by the Python code fall into three
shapes, each modelled exactly:
  * literal substring search (`re.search` on a pattern with no
    metacharacters, or Python's `in` operator);
  * `A.*B` / `A.*B.*C` — the literals in order on one line (regex `.`
    does not match a newline);
  * `\[\s*\d+%\]` — the bracketed-percentage scanner, where `\s` does
    match newlines.
The cosmetic `_get_current_activity` helper (used only to fill the
human-readable `current_task` / `last_activity` strings, never consulted
by any decision logic) is not modelled; the corresponding `BuildStatus`
fields are omitted.
-/

abbrev Str := List Char

/-- Python whitespace for `str.strip` and regex `\s`. -/
def pySpace (c : Char) : Bool :=
  c = ' ' || c = '\t' || c = '\n' || c = '\r' || c = Char.ofNat 11 || c = Char.ofNat 12

/-- Python `str.lower()` (ASCII case folding suffices for the patterns used). -/
def lowerStr (s : Str) : Str := s.map Char.toLower

/-- Python `str.strip()`. -/
def stripLine (s : Str) : Str :=
  ((s.dropWhile pySpace).reverse.dropWhile pySpace).reverse

/-- Python `str.split('\n')`. -/
def splitLines : Str → List Str
  | [] => [[]]
  | c :: rest =>
    let r := splitLines rest
    if c = '\n' then [] :: r
    else
      match r with
      | [] => [[c]]
      | l :: ls => (c :: l) :: ls

/-- Substring containment: Python `needle in hay`, or `re.search` on a
pattern consisting only of literal characters. -/
def containsLit (needle hay : Str) : Bool :=
  hay.tails.any fun t => needle.isPrefixOf t

/-- `re.search("A.*B", hay)`: `A`, then `B` further right with no newline in
between (regex `.` does not match `'\n'`; neither literal contains `'\n'`). -/
def containsSeq2 (a b hay : Str) : Bool :=
  hay.tails.any fun t =>
    a.isPrefixOf t && containsLit b ((t.drop a.length).takeWhile (fun c => c ≠ '\n'))

/-- `re.search("A.*B.*C", hay)`: the three literals in order on one line. -/
def containsSeq3 (a b c hay : Str) : Bool :=
  hay.tails.any fun t =>
    a.isPrefixOf t && containsSeq2 b c ((t.drop a.length).takeWhile (fun ch => ch ≠ '\n'))

/-- Numeric value of a run of decimal digits. -/
def digitsToNat (ds : Str) : Nat :=
  ds.foldl (fun n c => 10 * n + (c.toNat - '0'.toNat)) 0

/-- Try to match `\[\s*\d+%\]` at the start of the text, returning the
captured number. -/
def parseProgressAt : Str → Option Nat
  | '[' :: rest =>
    let afterWs := rest.dropWhile pySpace
    let digits := afterWs.takeWhile Char.isDigit
    match digits, afterWs.dropWhile Char.isDigit with
    | [], _ => none
    | _ :: _, '%' :: ']' :: _ => some (digitsToNat digits)
    | _, _ => none
  | _ => none

/-- `re.findall(r"\[\s*(\d+)%\]", output)` as numbers.  Matches never
overlap (a fresh `'['` cannot occur inside a match), so scanning every
suffix finds exactly the non-overlapping matches `findall` returns. -/
def progressValues (output : Str) : List Nat :=
  output.tails.filterMap parseProgressAt

/-- The three regex shapes used by the monitor's per-line filters
(`re.search` with `re.IGNORECASE`; needles are stored lowercase and the
line is lowercased before matching). -/
inductive Pat where
  | lit (a : Str)
  | seq2 (a b : Str)
  | seq3 (a b c : Str)

def Pat.imatch : Pat → Str → Bool
  | .lit a, l => containsLit a (lowerStr l)
  | .seq2 a b, l => containsSeq2 a b (lowerStr l)
  | .seq3 a b c, l => containsSeq3 a b c (lowerStr l)

/-! ## Data model (fluffos_build_monitor.py lines 17-69) -/

/-- `class BuildState(Enum)` (lines 17-25). -/
inductive BuildState where
  | STARTING
  | CONFIGURING
  | COMPILING_CORE
  | COMPILING_PACKAGES
  | LINKING
  | COMPLETED
  | FAILED
  | TIMEOUT
deriving DecidableEq, Repr

/-- An element of `self.errors`: the dicts built at lines 198-202 carry
`message`, `package_related`, `critical`; the transport-error dict built at
line 291 has no `package_related` key, hence the `Option`. -/
structure ErrEntry where
  message : Str
  package_related : Option Bool
  critical : Bool
deriving DecidableEq, Repr

/-- An element of `self.warnings` (lines 205-208). -/
structure WarnEntry where
  message : Str
  package_related : Bool
deriving DecidableEq, Repr

/-- The mutable fields of `FluffOSBuildMonitor` (lines 42-69).  `bash_id`,
`start_time`, `last_check_time` and `last_output_size` are identity /
real-time bookkeeping with no influence on the modelled logic; elapsed
time is instead passed to `check_build_status` explicitly. -/
structure MonitorState where
  focus_packages : List Str
  max_duration : Nat
  packages_built : List Str
  errors : List ErrEntry
  warnings : List WarnEntry
  current_interval_index : Nat
  consecutive_no_activity : Nat
  current_progress : Nat
  state : BuildState
deriving DecidableEq, Repr

/-- `@dataclass BuildStatus` (lines 27-37) minus the two cosmetic activity
strings (`current_task`, `last_activity`). -/
structure BuildStatus where
  state : BuildState
  progress : Nat
  packages_built : List Str
  packages_total : List Str
  errors : List ErrEntry
  warnings : List WarnEntry
  duration : Nat
deriving DecidableEq, Repr

/-- What `_run_bash_output` (lines 71-93) hands back to
`check_build_status`: `(stdout, stderr, completed)`. -/
structure FetchResult where
  stdout : Str
  stderr : Str
  completed : Bool
deriving DecidableEq, Repr

/-- `__init__` (lines 42-69): `focus_packages or ["http", "rest", "openapi"]`
treats an empty list like `None`. -/
def initState (focus_packages : List Str) (max_duration : Nat) : MonitorState :=
  { focus_packages :=
      if focus_packages.isEmpty then
        ["http".toList, "rest".toList, "openapi".toList]
      else focus_packages
    max_duration := max_duration
    packages_built := []
    errors := []
    warnings := []
    current_interval_index := 0
    consecutive_no_activity := 0
    current_progress := 0
    state := BuildState.STARTING }

/-- `self.wait_intervals` (line 55). -/
def wait_intervals : List Nat := [30, 60, 120, 240, 480, 900]

/-- `self.milestones` (lines 60-67). -/
structure Milestones where
  cmake_start : Nat
  cmake_done : Nat
  core_start : Nat
  packages_start : Nat
  linking_start : Nat
  build_complete : Nat

def milestones : Milestones :=
  { cmake_start := 10, cmake_done := 20, core_start := 30
    packages_start := 50, linking_start := 80, build_complete := 100 }

/-! ## Text classifier (lines 95-146) -/

/-- `_detect_build_activity` (lines 95-109): any of the six activity
indicators, `re.IGNORECASE`. -/
def detect_build_activity (output : Str) : Bool :=
  let lo := lowerStr output
  !(progressValues lo).isEmpty
    || containsSeq2 "building".toList ".o".toList lo
    || containsSeq2 "linking".toList "executable".toList lo
    || containsLit "built target".toList lo
    || containsSeq2 "make".toList ":".toList lo
    || containsLit "cmake".toList lo

/-- `_extract_progress` (lines 111-132).  Explicit `[NN%]` markers win
(max of all matches); otherwise the milestone ladder, each rung clamped by
max with the current progress.  Note line 125 interpolates the package name
unlowered into the lowered output. -/
def extract_progress (focus : List Str) (current_progress : Nat) (output : Str) : Nat :=
  let pm := progressValues output
  if pm ≠ [] then pm.foldl Nat.max 0
  else
    let lo := lowerStr output
    if containsLit "cmake".toList lo && containsLit "configuring".toList lo then
      Nat.max current_progress milestones.cmake_start
    else if containsLit "generating done".toList lo then
      Nat.max current_progress milestones.cmake_done
    else if containsLit "building cxx object".toList lo then
      Nat.max current_progress milestones.core_start
    else if focus.any (fun pkg => containsLit ("package_".toList ++ pkg) lo) then
      Nat.max current_progress milestones.packages_start
    else if containsLit "linking".toList lo && containsLit "executable".toList lo then
      Nat.max current_progress milestones.linking_start
    else if containsLit "built target".toList lo
        && (containsLit "driver".toList lo || containsLit "100%".toList output) then
      milestones.build_complete
    else current_progress

/-- Loop body of `_extract_package_completions` (lines 134-146), threading
`self.packages_built`; returns `(newly_built, packages_built)`. -/
def epcAux (output : Str) : List Str → List Str → List Str × List Str
  | [], built => ([], built)
  | p :: rest, built =>
    if containsLit (lowerStr ("Built target package_".toList ++ p)) (lowerStr output)
        && !(decide (p ∈ built)) then
      let r := epcAux output rest (built ++ [p])
      (p :: r.1, r.2)
    else epcAux output rest built

/-- `_extract_package_completions` (lines 134-146). -/
def extract_package_completions (focus built : List Str) (output : Str) :
    List Str × List Str :=
  epcAux output focus built

/-! ## Signal extraction (lines 148-210) -/

/-- `critical_error_patterns` (lines 155-162). -/
def critical_error_patterns : List Pat :=
  [ .lit "error:".toList
  , .lit "fatal error:".toList
  , .lit "compilation failed".toList
  , .lit "build failed".toList
  , .seq2 "make".toList "error".toList
  , .seq2 "cmake".toList "error".toList ]

/-- `noise_patterns` (lines 168-176). -/
def noise_patterns : List Pat :=
  [ .seq3 "warning".toList "third".toList "party".toList
  , .seq2 "warning".toList "libwebsockets".toList
  , .seq2 "warning".toList "libevent".toList
  , .seq2 "warning".toList "crypt".toList
  , .lit "note: unrecognized command-line option".toList
  , .seq2 "warning".toList "stringop-overflow".toList
  , .seq2 "warning".toList "deprecated".toList ]

/-- Line 184: the noise check. -/
def is_noise_line (l : Str) : Bool := noise_patterns.any fun p => p.imatch l

/-- Line 188: `is_error`. -/
def is_critical_line (l : Str) : Bool := critical_error_patterns.any fun p => p.imatch l

/-- `package_patterns` (line 165). -/
def package_patterns (focus : List Str) : List Str :=
  focus.map fun pkg => "packages/".toList ++ pkg

/-- Line 191: `is_package_related` — case-sensitive `in`. -/
def is_package_related_line (focus : List Str) (l : Str) : Bool :=
  (package_patterns focus).any fun pat => containsLit pat l

/-- Line 194: `is_warning`. -/
def is_warning_line (l : Str) : Bool := containsLit "warning:".toList (lowerStr l)

/-- The per-line loop of `_filter_errors_and_warnings` (lines 178-208).
The duplicate checks consult only the lists accumulated before the call
(`self.errors` / `self.warnings`), exactly as the Python loop does. -/
def fewAux (focus : List Str) (errors : List ErrEntry) (warnings : List WarnEntry) :
    List Str → List ErrEntry × List WarnEntry
  | [] => ([], [])
  | l :: rest =>
    let line := stripLine l
    let r := fewAux focus errors warnings rest
    if line = [] then r
    else if is_noise_line line then r
    else
      let is_error := is_critical_line line
      let is_pkg := is_package_related_line focus line
      let is_warn := is_warning_line line
      if is_error || (is_pkg && is_warn) then
        if decide (line ∈ errors.map fun e => e.message) then r
        else ({ message := line, package_related := some is_pkg, critical := is_error } :: r.1, r.2)
      else if is_warn && is_pkg then
        if decide (line ∈ warnings.map fun w => w.message) then r
        else (r.1, { message := line, package_related := is_pkg } :: r.2)
      else r

/-- `_filter_errors_and_warnings` (lines 148-210). -/
def filter_errors_and_warnings (focus : List Str) (errors : List ErrEntry)
    (warnings : List WarnEntry) (output : Str) : List ErrEntry × List WarnEntry :=
  fewAux focus errors warnings (splitLines output)

/-! ## State derivation (lines 212-236) -/

/-- `_update_build_state` (lines 212-236). -/
def update_build_state (errors : List ErrEntry) (current_progress : Nat)
    (output : Str) (completed : Bool) : BuildState :=
  let lo := lowerStr output
  if completed then
    if containsLit "built target driver".toList lo = true ∨ 100 ≤ current_progress then
      BuildState.COMPLETED
    else if errors ≠ [] then BuildState.FAILED
    else BuildState.COMPLETED
  else if errors.any (fun e => e.critical) = true then BuildState.FAILED
  else if containsLit "cmake".toList lo = true ∧ current_progress < 30 then
    BuildState.CONFIGURING
  else if current_progress < 50 then BuildState.COMPILING_CORE
  else if current_progress < 80 then BuildState.COMPILING_PACKAGES
  else if current_progress < 100 then BuildState.LINKING
  else BuildState.COMPLETED

/-! ## check_build_status (lines 267-332)

The body after the timeout guard is a straight-line sequence of mutations
of `self`; each statement group becomes one state-transformer below, and
`checkCore` is their composition in source order. -/

/-- Lines 290-292: a fetch failure whose text contains "error" is appended
as a critical error and the phase forced to FAILED. -/
def transport_errors (st : MonitorState) (fetch : FetchResult) : MonitorState :=
  if !fetch.stderr.isEmpty && containsLit "error".toList (lowerStr fetch.stderr) then
    { st with
      errors := st.errors ++ [{ message := fetch.stderr, package_related := none, critical := true }]
      state := BuildState.FAILED }
  else st

/-- Lines 295-301: activity resets the backoff counters, inactivity
increments the streak. -/
def activity_update (st : MonitorState) (fetch : FetchResult) : MonitorState :=
  if detect_build_activity fetch.stdout then
    { st with consecutive_no_activity := 0, current_interval_index := 0 }
  else
    { st with consecutive_no_activity := st.consecutive_no_activity + 1 }

/-- Lines 303-306: progress replaced only when strictly greater. -/
def progress_update (st : MonitorState) (fetch : FetchResult) : MonitorState :=
  let new_progress := extract_progress st.focus_packages st.current_progress fetch.stdout
  if new_progress > st.current_progress then
    { st with current_progress := new_progress }
  else st

/-- Lines 308-309: `_extract_package_completions` mutates
`self.packages_built` (its `newly_built` return value is not stored). -/
def packages_update (st : MonitorState) (fetch : FetchResult) : MonitorState :=
  { st with
    packages_built := (extract_package_completions st.focus_packages st.packages_built fetch.stdout).2 }

/-- Lines 311-314: extend the error and warning lists. -/
def signals_update (st : MonitorState) (fetch : FetchResult) : MonitorState :=
  let news := filter_errors_and_warnings st.focus_packages st.errors st.warnings fetch.stdout
  { st with errors := st.errors ++ news.1, warnings := st.warnings ++ news.2 }

/-- Line 317: derive the phase. -/
def phase_update (st : MonitorState) (fetch : FetchResult) : MonitorState :=
  { st with
    state := update_build_state st.errors st.current_progress fetch.stdout fetch.completed }

/-- The non-timeout body of `check_build_status` (lines 287-320). -/
def checkCore (st : MonitorState) (fetch : FetchResult) : MonitorState :=
  phase_update
    (signals_update
      (packages_update
        (progress_update
          (activity_update
            (transport_errors st fetch) fetch) fetch) fetch) fetch) fetch

/-- `check_build_status` (lines 267-332): `duration` is the elapsed time in
seconds (`time.time() - self.start_time`) and `fetch` the result of
`_run_bash_output`.  Returns the updated monitor together with the returned
`BuildStatus` snapshot. -/
def check_build_status (st : MonitorState) (duration : Nat) (fetch : FetchResult) :
    MonitorState × BuildStatus :=
  if duration > st.max_duration then
    ({ st with state := BuildState.TIMEOUT },
     { state := BuildState.TIMEOUT
       progress := st.current_progress
       packages_built := st.packages_built
       packages_total := st.focus_packages
       errors := st.errors
       warnings := st.warnings
       duration := duration })
  else
    let st6 := checkCore st fetch
    (st6,
     { state := st6.state
       progress := st6.current_progress
       packages_built := st6.packages_built
       packages_total := st6.focus_packages
       errors := st6.errors
       warnings := st6.warnings
       duration := duration })

/-- `get_next_wait_interval` (lines 334-343). -/
def get_next_wait_interval (st : MonitorState) : MonitorState × Nat :=
  let st' :=
    if st.consecutive_no_activity > 2 then
      { st with
        current_interval_index :=
          min (st.current_interval_index + 1) (wait_intervals.length - 1) }
    else st
  (st', wait_intervals.getD st'.current_interval_index 0)

/-- One polling step of the monitor loop: the state component of a call. -/
def monitorStep (st : MonitorState) (p : Nat × FetchResult) : MonitorState :=
  (check_build_status st p.1 p.2).1

/-- The snapshots produced by a sequence of `check_build_status` calls, each
given by its elapsed duration and fetch result. -/
def runStatuses : MonitorState → List (Nat × FetchResult) → List BuildStatus
  | _, [] => []
  | st, p :: rest => (check_build_status st p.1 p.2).2 :: runStatuses (monitorStep st p) rest

/-! ## Lemmas about signal extraction -/

/-- The plain-warning branch of the per-line loop is unreachable: its guard
`is_warning and is_package_related` is subsumed by the error-retention guard
`is_error or (is_package_related and is_warning)` checked just before. -/
theorem fewAux_snd (focus : List Str) (errs : List ErrEntry) (ws : List WarnEntry) :
    ∀ lines, (fewAux focus errs ws lines).2 = [] := by
  intro lines
  induction lines with
  | nil => rfl
  | cons l rest ih =>
    simp only [fewAux]
    split_ifs with h1 h2 h3 h4 h5 h6 <;> simp_all

theorem filter_snd (focus : List Str) (errs : List ErrEntry) (ws : List WarnEntry)
    (out : Str) : (filter_errors_and_warnings focus errs ws out).2 = [] :=
  fewAux_snd focus errs ws (splitLines out)

/-- Every error entry retained from a chunk has its `critical` flag equal to
the critical-pattern classification of its own text, matches no noise
pattern, and duplicates no message already recorded before the call. -/
theorem fewAux_fst_mem (focus : List Str) (errs : List ErrEntry) (ws : List WarnEntry) :
    ∀ lines, ∀ e ∈ (fewAux focus errs ws lines).1,
      e.critical = is_critical_line e.message ∧
      is_noise_line e.message = false ∧
      e.message ∉ errs.map (fun x => x.message) := by
  intro lines
  induction lines with
  | nil => intro e he; simp [fewAux] at he
  | cons l rest ih =>
    intro e he
    simp only [fewAux] at he
    split_ifs at he with h1 h2 h3 h4 h5 h6
    · exact ih e he
    · exact ih e he
    · exact ih e he
    · rcases List.mem_cons.mp he with rfl | he'
      · refine ⟨rfl, ?_, ?_⟩
        · simpa using h2
        · simpa using h4
      · exact ih e he'
    · exact ih e he
    · exact ih e he
    · exact ih e he

theorem filter_fst_mem (focus : List Str) (errs : List ErrEntry) (ws : List WarnEntry)
    (out : Str) : ∀ e ∈ (filter_errors_and_warnings focus errs ws out).1,
      e.critical = is_critical_line e.message ∧
      is_noise_line e.message = false ∧
      e.message ∉ errs.map (fun x => x.message) :=
  fewAux_fst_mem focus errs ws (splitLines out)

/-- A non-empty, non-noise line matching a critical pattern is either newly
retained with `critical = true`, or its text is already among the recorded
messages. -/
theorem fewAux_crit (focus : List Str) (errs : List ErrEntry) (ws : List WarnEntry) :
    ∀ lines, ∀ l ∈ lines, stripLine l ≠ [] → is_noise_line (stripLine l) = false →
      is_critical_line (stripLine l) = true →
      (fewAux focus errs ws lines).1.any (fun e => e.critical) = true ∨
        stripLine l ∈ errs.map (fun x => x.message) := by
  intro lines
  induction lines with
  | nil => intro l hl; simp at hl
  | cons a rest ih =>
    intro l hl hne hnoise hcrit
    rcases List.mem_cons.mp hl with rfl | hl'
    · simp only [fewAux]
      split_ifs with h1 h2 h3 h4 h5 h6
      · exact absurd h1 hne
      · rw [hnoise] at h2; exact absurd h2 (by simp)
      · right; simpa using h4
      · left; simp [hcrit]
      · rw [hcrit] at h3; simp at h3
      · rw [hcrit] at h3; simp at h3
      · rw [hcrit] at h3; simp at h3
    · rcases ih l hl' hne hnoise hcrit with h | h
      · left
        simp only [fewAux]
        split_ifs <;> simp [h]
      · right; exact h

/-! ## Lemmas about package completions -/

/-- The built list only ever grows at the end, stays duplicate-free, and the
newly-built list never names an already-built package. -/
theorem epcAux_spec (out : Str) :
    ∀ pkgs built,
      (∃ t, (epcAux out pkgs built).2 = built ++ t) ∧
      (built.Nodup → (epcAux out pkgs built).2.Nodup) ∧
      ((epcAux out pkgs built).1.all fun p => !(decide (p ∈ built))) = true := by
  intro pkgs
  induction pkgs with
  | nil =>
    intro built
    exact ⟨⟨[], by simp [epcAux]⟩, fun h => by simpa [epcAux] using h, by simp [epcAux]⟩
  | cons p rest ih =>
    intro built
    simp only [epcAux]
    split_ifs with h
    · have hp : p ∉ built := by
        have h2 := (Bool.and_eq_true _ _).mp h |>.2
        simpa using h2
      obtain ⟨⟨t, ht⟩, hnd, hall⟩ := ih (built ++ [p])
      refine ⟨⟨[p] ++ t, by rw [ht, List.append_assoc]⟩, ?_, ?_⟩
      · intro hbn
        apply hnd
        simp [List.nodup_append, hbn, hp]
      · rw [List.all_cons]
        have hhd : (!(decide (p ∈ built))) = true := by simpa using hp
        rw [hhd, Bool.true_and]
        rw [List.all_eq_true] at hall ⊢
        intro q hq
        have := hall q hq
        simp only [Bool.not_eq_true', decide_eq_false_iff_not, List.mem_append,
          List.mem_singleton] at this ⊢
        exact fun hqb => this (Or.inl hqb)
    · exact ih built

/-! ## Lemmas about one check_build_status call -/

theorem checkCore_max (st : MonitorState) (f : FetchResult) :
    (checkCore st f).max_duration = st.max_duration := by
  simp only [checkCore, phase_update, signals_update, packages_update, progress_update,
    activity_update, transport_errors]
  split_ifs <;> rfl

theorem checkCore_focus (st : MonitorState) (f : FetchResult) :
    (checkCore st f).focus_packages = st.focus_packages := by
  simp only [checkCore, phase_update, signals_update, packages_update, progress_update,
    activity_update, transport_errors]
  split_ifs <;> rfl

theorem checkCore_warnings (st : MonitorState) (f : FetchResult) :
    (checkCore st f).warnings = st.warnings := by
  simp only [checkCore, phase_update, signals_update, packages_update, progress_update,
    activity_update, transport_errors]
  split_ifs <;> simp [filter_snd]

theorem checkCore_cp_mono (st : MonitorState) (f : FetchResult) :
    st.current_progress ≤ (checkCore st f).current_progress := by
  simp only [checkCore, phase_update, signals_update, packages_update, progress_update,
    activity_update, transport_errors]
  split_ifs <;> simp_all <;> omega

theorem checkCore_state (st : MonitorState) (f : FetchResult) :
    (checkCore st f).state =
      update_build_state (checkCore st f).errors (checkCore st f).current_progress
        f.stdout f.completed := rfl

theorem checkCore_built (st : MonitorState) (f : FetchResult) :
    (checkCore st f).packages_built =
      (extract_package_completions st.focus_packages st.packages_built f.stdout).2 := by
  simp only [checkCore, phase_update, signals_update, packages_update, progress_update,
    activity_update, transport_errors]
  split_ifs <;> rfl

theorem checkCore_errors_pos (st : MonitorState) (f : FetchResult)
    (h : (!f.stderr.isEmpty && containsLit "error".toList (lowerStr f.stderr)) = true) :
    (checkCore st f).errors =
      (st.errors ++ [{ message := f.stderr, package_related := none, critical := true }]) ++
        (filter_errors_and_warnings st.focus_packages
          (st.errors ++ [{ message := f.stderr, package_related := none, critical := true }])
          st.warnings f.stdout).1 := by
  simp only [checkCore, phase_update, signals_update, packages_update, progress_update,
    activity_update, transport_errors, h]
  split_ifs <;> simp_all

theorem checkCore_errors_neg (st : MonitorState) (f : FetchResult)
    (h : (!f.stderr.isEmpty && containsLit "error".toList (lowerStr f.stderr)) = false) :
    (checkCore st f).errors =
      st.errors ++
        (filter_errors_and_warnings st.focus_packages st.errors st.warnings f.stdout).1 := by
  simp only [checkCore, phase_update, signals_update, packages_update, progress_update,
    activity_update, transport_errors, h]
  split_ifs <;> simp_all

theorem checkCore_errors_ext (st : MonitorState) (f : FetchResult) :
    ∃ t, (checkCore st f).errors = st.errors ++ t := by
  by_cases h : (!f.stderr.isEmpty && containsLit "error".toList (lowerStr f.stderr)) = true
  · exact ⟨_, by rw [checkCore_errors_pos st f h, List.append_assoc]⟩
  · exact ⟨_, checkCore_errors_neg st f (by simpa using h)⟩

theorem checkCore_activity_pos (st : MonitorState) (f : FetchResult)
    (h : detect_build_activity f.stdout = true) :
    (checkCore st f).current_interval_index = 0 ∧
      (checkCore st f).consecutive_no_activity = 0 := by
  simp only [checkCore, phase_update, signals_update, packages_update, progress_update,
    activity_update, transport_errors, h]
  split_ifs <;> simp_all

theorem checkCore_activity_neg (st : MonitorState) (f : FetchResult)
    (h : detect_build_activity f.stdout = false) :
    (checkCore st f).consecutive_no_activity = st.consecutive_no_activity + 1 ∧
      (checkCore st f).current_interval_index = st.current_interval_index := by
  simp only [checkCore, phase_update, signals_update, packages_update, progress_update,
    activity_update, transport_errors, h]
  split_ifs <;> simp_all

theorem check_not_timeout (st : MonitorState) (d : Nat) (f : FetchResult)
    (hd : ¬ d > st.max_duration) :
    check_build_status st d f =
      (checkCore st f,
       { state := (checkCore st f).state
         progress := (checkCore st f).current_progress
         packages_built := (checkCore st f).packages_built
         packages_total := (checkCore st f).focus_packages
         errors := (checkCore st f).errors
         warnings := (checkCore st f).warnings
         duration := d }) := by
  simp [check_build_status, hd]

theorem check_snd_state (st : MonitorState) (d : Nat) (f : FetchResult) :
    (check_build_status st d f).2.state = (check_build_status st d f).1.state := by
  unfold check_build_status
  split_ifs <;> rfl

theorem check_snd_progress (st : MonitorState) (d : Nat) (f : FetchResult) :
    (check_build_status st d f).2.progress = (check_build_status st d f).1.current_progress := by
  unfold check_build_status
  split_ifs <;> rfl

theorem check_snd_errors (st : MonitorState) (d : Nat) (f : FetchResult) :
    (check_build_status st d f).2.errors = (check_build_status st d f).1.errors := by
  unfold check_build_status
  split_ifs <;> rfl

theorem check_snd_warnings (st : MonitorState) (d : Nat) (f : FetchResult) :
    (check_build_status st d f).2.warnings = (check_build_status st d f).1.warnings := by
  unfold check_build_status
  split_ifs <;> rfl

theorem check_snd_built (st : MonitorState) (d : Nat) (f : FetchResult) :
    (check_build_status st d f).2.packages_built =
      (check_build_status st d f).1.packages_built := by
  unfold check_build_status
  split_ifs <;> rfl

theorem check_max (st : MonitorState) (d : Nat) (f : FetchResult) :
    (check_build_status st d f).1.max_duration = st.max_duration := by
  unfold check_build_status
  split_ifs
  · rfl
  · exact checkCore_max st f

theorem check_cp_mono (st : MonitorState) (d : Nat) (f : FetchResult) :
    st.current_progress ≤ (check_build_status st d f).1.current_progress := by
  unfold check_build_status
  split_ifs
  · exact Nat.le.refl
  · exact checkCore_cp_mono st f

theorem check_errors_ext (st : MonitorState) (d : Nat) (f : FetchResult) :
    ∃ t, (check_build_status st d f).1.errors = st.errors ++ t := by
  unfold check_build_status
  split_ifs
  · exact ⟨[], by simp⟩
  · exact checkCore_errors_ext st f

theorem check_warnings_eq (st : MonitorState) (d : Nat) (f : FetchResult) :
    (check_build_status st d f).1.warnings = st.warnings := by
  unfold check_build_status
  split_ifs
  · rfl
  · exact checkCore_warnings st f

theorem check_hasCrit (st : MonitorState) (d : Nat) (f : FetchResult)
    (h : st.errors.any (fun e => e.critical) = true) :
    (check_build_status st d f).1.errors.any (fun e => e.critical) = true := by
  obtain ⟨t, ht⟩ := check_errors_ext st d f
  rw [ht, List.any_append, h, Bool.true_or]

theorem update_crit_failed (errs : List ErrEntry) (cp : Nat) (out : Str)
    (h : errs.any (fun e => e.critical) = true) :
    update_build_state errs cp out false = BuildState.FAILED := by
  simp [update_build_state, h]

theorem check_state_eq (st : MonitorState) (d : Nat) (f : FetchResult)
    (hd : ¬ d > st.max_duration) :
    (check_build_status st d f).1.state =
      update_build_state (check_build_status st d f).1.errors
        (check_build_status st d f).1.current_progress f.stdout f.completed := by
  rw [check_not_timeout st d f hd]
  exact checkCore_state st f

theorem check_failed_of_crit (st : MonitorState) (d : Nat) (f : FetchResult)
    (hd : ¬ d > st.max_duration) (hc : f.completed = false)
    (h : (check_build_status st d f).1.errors.any (fun e => e.critical) = true) :
    (check_build_status st d f).1.state = BuildState.FAILED := by
  rw [check_state_eq st d f hd, hc, update_crit_failed _ _ _ h]

/-! ## Run-level lemmas -/

theorem run_all_ge (steps : List (Nat × FetchResult)) :
    ∀ st : MonitorState,
      ((runStatuses st steps).all fun b => decide (st.current_progress ≤ b.progress)) = true := by
  induction steps with
  | nil => intro st; rfl
  | cons p rest ih =>
    intro st
    simp only [runStatuses, List.all_cons, Bool.and_eq_true, decide_eq_true_eq]
    constructor
    · rw [check_snd_progress]
      exact check_cp_mono st p.1 p.2
    · have h := ih (monitorStep st p)
      rw [List.all_eq_true] at h ⊢
      intro b hb
      have h1 := h b hb
      rw [decide_eq_true_eq] at h1 ⊢
      exact Nat.le_trans (check_cp_mono st p.1 p.2) h1

theorem run_chain (steps : List (Nat × FetchResult)) :
    ∀ st : MonitorState,
      List.Chain' (fun a b => a.progress ≤ b.progress) (runStatuses st steps) := by
  induction steps with
  | nil => intro st; exact List.chain'_nil
  | cons p rest ih =>
    intro st
    simp only [runStatuses]
    rw [List.chain'_cons']
    refine ⟨?_, ih (monitorStep st p)⟩
    intro b hb
    have hball := run_all_ge rest (monitorStep st p)
    rw [List.all_eq_true] at hball
    cases hrest : runStatuses (monitorStep st p) rest with
    | nil => rw [hrest] at hb; simp at hb
    | cons b0 bs =>
      rw [hrest] at hb
      simp only [List.head?_cons, Option.mem_def, Option.some.injEq] at hb
      have hmem : b ∈ runStatuses (monitorStep st p) rest := by
        rw [hrest, List.mem_cons]
        exact Or.inl hb.symm
      have hge := hball b hmem
      rw [decide_eq_true_eq] at hge
      rw [check_snd_progress]
      exact hge

/-- Well-formedness of the error list: any recorded entry whose message
matches a critical pattern carries `critical = true`.  Holds initially and
is preserved by every call (chunk entries store exactly their own
classification; transport entries are always critical). -/
def ErrInv (errors : List ErrEntry) : Prop :=
  ∀ e ∈ errors, is_critical_line e.message = true → e.critical = true

instance (errors : List ErrEntry) : Decidable (ErrInv errors) := by
  unfold ErrInv
  infer_instance

theorem errInv_append_filter (focus : List Str) (errs : List ErrEntry)
    (ws : List WarnEntry) (out : Str) (h : ErrInv errs) :
    ErrInv (errs ++ (filter_errors_and_warnings focus errs ws out).1) := by
  intro e he
  rcases List.mem_append.mp he with h1 | h1
  · exact h e h1
  · intro hc
    have := (filter_fst_mem focus errs ws out e h1).1
    rw [this, hc]

theorem errInv_check (st : MonitorState) (d : Nat) (f : FetchResult)
    (h : ErrInv st.errors) : ErrInv (check_build_status st d f).1.errors := by
  unfold check_build_status
  split_ifs with hd
  · exact h
  · show ErrInv (checkCore st f).errors
    by_cases ht : (!f.stderr.isEmpty && containsLit "error".toList (lowerStr f.stderr)) = true
    · rw [checkCore_errors_pos st f ht]
      apply errInv_append_filter
      intro e he
      rcases List.mem_append.mp he with h1 | h1
      · exact h e h1
      · intro _
        simp only [List.mem_singleton] at h1
        rw [h1]
    · rw [checkCore_errors_neg st f (by simpa using ht)]
      exact errInv_append_filter _ _ _ _ h

/-- A chunk containing a retainable critical line leaves the error list with
a critical entry. -/
theorem check_crit_of_line (st : MonitorState) (d : Nat) (f : FetchResult)
    (hinv : ErrInv st.errors) (hd : ¬ d > st.max_duration)
    (hl : ∃ l ∈ splitLines f.stdout, stripLine l ≠ [] ∧
      is_noise_line (stripLine l) = false ∧ is_critical_line (stripLine l) = true) :
    (check_build_status st d f).1.errors.any (fun e => e.critical) = true := by
  obtain ⟨l, hmem, hne, hnoise, hcrit⟩ := hl
  rw [check_not_timeout st d f hd]
  show (checkCore st f).errors.any (fun e => e.critical) = true
  have main : ∀ base : List ErrEntry, ErrInv base →
      (base ++ (filter_errors_and_warnings st.focus_packages base st.warnings f.stdout).1).any
        (fun e => e.critical) = true := by
    intro base hbase
    rcases fewAux_crit st.focus_packages base st.warnings (splitLines f.stdout)
        l hmem hne hnoise hcrit with hx | hx
    · rw [List.any_append]
      unfold filter_errors_and_warnings
      rw [hx, Bool.or_true]
    · obtain ⟨e, he, hemsg⟩ := by
        simpa only [List.mem_map] using hx
      have : e.critical = true := hbase e he (by rw [hemsg]; exact hcrit)
      rw [List.any_append]
      have : base.any (fun e => e.critical) = true := by
        rw [List.any_eq_true]
        exact ⟨e, he, this⟩
      rw [this, Bool.true_or]
  by_cases ht : (!f.stderr.isEmpty && containsLit "error".toList (lowerStr f.stderr)) = true
  · rw [checkCore_errors_pos st f ht]
    apply main
    intro e he
    rcases List.mem_append.mp he with h1 | h1
    · exact hinv e h1
    · intro _
      simp only [List.mem_singleton] at h1
      rw [h1]
  · rw [checkCore_errors_neg st f (by simpa using ht)]
    exact main st.errors hinv

/-- Once a critical error is recorded, every later call made before the
deadline and with the completed flag still false reports FAILED. -/
theorem run_failed (steps : List (Nat × FetchResult)) :
    ∀ st : MonitorState, st.errors.any (fun e => e.critical) = true →
      (steps.all fun p => decide (¬ p.1 > st.max_duration) && !p.2.completed) = true →
      ((runStatuses st steps).all fun b => decide (b.state = BuildState.FAILED)) = true := by
  induction steps with
  | nil => intro st _ _; rfl
  | cons p rest ih =>
    intro st hcrit hall
    simp only [List.all_cons, Bool.and_eq_true] at hall
    obtain ⟨⟨ha, hb⟩, hrest⟩ := hall
    rw [decide_eq_true_eq] at ha
    rw [Bool.not_eq_true'] at hb
    simp only [runStatuses, List.all_cons, Bool.and_eq_true]
    constructor
    · rw [decide_eq_true_eq, check_snd_state]
      exact check_failed_of_crit st p.1 p.2 ha hb (check_hasCrit st p.1 p.2 hcrit)
    · apply ih
      · exact check_hasCrit st p.1 p.2 hcrit
      · have hmax : (monitorStep st p).max_duration = st.max_duration :=
          check_max st p.1 p.2
        rw [hmax]
        exact hrest

/-- With the completed flag set, line 215's first branch checks the driver
marker / progress, and line 217 fails on a NON-EMPTY error list — critical
or not. -/
theorem update_completed_char (errs : List ErrEntry) (cp : Nat) (out : Str) :
    (update_build_state errs cp out true = BuildState.FAILED ↔
      (containsLit "built target driver".toList (lowerStr out) = false ∧ cp < 100 ∧
        errs ≠ [])) ∧
    (update_build_state errs cp out true = BuildState.COMPLETED ∨
      update_build_state errs cp out true = BuildState.FAILED) := by
  have hred : update_build_state errs cp out true =
      (if containsLit "built target driver".toList (lowerStr out) = true ∨ 100 ≤ cp
       then BuildState.COMPLETED
       else if errs ≠ [] then BuildState.FAILED else BuildState.COMPLETED) := rfl
  rw [hred]
  split_ifs with h1 h2
  · refine ⟨?_, Or.inl rfl⟩
    constructor
    · intro hcon; exact absurd hcon (by decide)
    · rintro ⟨hc, hcp, _⟩
      rcases h1 with h1 | h1
      · rw [h1] at hc; exact absurd hc (by decide)
      · omega
  · refine ⟨?_, Or.inr rfl⟩
    constructor
    · intro _
      have hA : containsLit "built target driver".toList (lowerStr out) = false := by
        rcases Bool.eq_false_or_eq_true
            (containsLit "built target driver".toList (lowerStr out)) with h | h
        · exact absurd (Or.inl h) h1
        · exact h
      have hB : cp < 100 := by
        by_contra hx
        exact h1 (Or.inr (by omega))
      exact ⟨hA, hB, h2⟩
    · intro _; rfl
  · refine ⟨?_, Or.inl rfl⟩
    constructor
    · intro hcon; exact absurd hcon (by decide)
    · rintro ⟨_, _, hne⟩
      exact (h2 hne).elim

theorem check_built_cases (st : MonitorState) (d : Nat) (f : FetchResult) :
    (check_build_status st d f).1.packages_built = st.packages_built ∨
      (check_build_status st d f).1.packages_built =
        (extract_package_completions st.focus_packages st.packages_built f.stdout).2 := by
  unfold check_build_status
  split_ifs
  · exact Or.inl rfl
  · exact Or.inr (checkCore_built st f)

theorem extract_package_completions_spec (focus built : List Str) (out : Str) :
    (∃ t, (extract_package_completions focus built out).2 = built ++ t) ∧
    (built.Nodup → (extract_package_completions focus built out).2.Nodup) ∧
    ((extract_package_completions focus built out).1.all
      fun p => !(decide (p ∈ built))) = true := by
  unfold extract_package_completions
  exact epcAux_spec out focus built

/-! ## Claims -/

/-- Claim C1: for every sequence of chunks fed to `check_build_status`
within one monitoring session, the `progress` field of the returned
`BuildStatus` is non-decreasing from call to call, regardless of chunk
order or verbatim repetition — `current_progress` is only replaced when the
newly extracted value is strictly greater. -/
theorem claim_C1_progress_monotone (st : MonitorState) (steps : List (Nat × FetchResult)) :
    List.Chain' (fun a b => a.progress ≤ b.progress) (runStatuses st steps) ∧
    ((runStatuses st steps).all fun b => decide (st.current_progress ≤ b.progress)) = true :=
  ⟨run_chain steps st, run_all_ge steps st⟩

/-- Claim C2 counterexample: the duplicate check consults only the error
list accumulated BEFORE the call, so the identical critical line appearing
twice within one chunk is retained twice, refuting uniqueness of retained
message texts. -/
theorem claim_C2_counterexample :
    ((check_build_status (initState [] 3600) 0
        { stdout := "error: x\nerror: x".toList, stderr := [], completed := false }).1.errors.map
      fun e => e.message) =
      ["error: x".toList, "error: x".toList] ∧
    ¬ ((check_build_status (initState [] 3600) 0
        { stdout := "error: x\nerror: x".toList, stderr := [], completed := false }).1.errors.map
      fun e => e.message).Nodup := by
  exact ⟨by decide, by decide⟩

/-- Claim C2 (amended): a message already recorded before the call is never
re-retained by chunk classification — uniqueness holds across chunks, while
repetitions inside a single chunk and transport-failure appends are not
deduplicated. -/
theorem claim_C2_no_cross_chunk_duplicates (focus : List Str) (errs : List ErrEntry)
    (ws : List WarnEntry) (out : Str) :
    ((filter_errors_and_warnings focus errs ws out).1.all
        fun e => !(decide (e.message ∈ errs.map fun x => x.message))) = true ∧
    ((filter_errors_and_warnings focus errs ws out).2.all
        fun w => !(decide (w.message ∈ ws.map fun x => x.message))) = true := by
  constructor
  · rw [List.all_eq_true]
    intro e he
    have h := (filter_fst_mem focus errs ws out e he).2.2
    simpa using h
  · rw [filter_snd]
    rfl

/-- Claim C3 counterexample: a critical line in call one yields FAILED, but
a later call with the completed flag true and the driver marker returns
COMPLETED, refuting "every subsequent call in the same session also returns
Failed". -/
theorem claim_C3_counterexample :
    (check_build_status (initState [] 3600) 0
        { stdout := "error: boom".toList, stderr := [], completed := false }).2.state =
      BuildState.FAILED ∧
    (check_build_status
        (check_build_status (initState [] 3600) 0
          { stdout := "error: boom".toList, stderr := [], completed := false }).1 1
        { stdout := "[100%] Built target driver".toList, stderr := [],
          completed := true }).2.state =
      BuildState.COMPLETED := by
  exact ⟨by decide, by decide⟩

/-- Claim C3 (amended): a chunk containing a non-empty line that matches a
critical-error pattern and no noise pattern, arriving before the deadline
with the completed flag false, makes that call return FAILED; and every
subsequent call whose completed flag is false and whose elapsed time is
within the deadline also returns FAILED, because critical errors accumulate
and the FAILED derivation re-fires. -/
theorem claim_C3_critical_forces_failed (st : MonitorState) (d : Nat) (f : FetchResult)
    (hinv : ErrInv st.errors) (hd : ¬ d > st.max_duration) (hc : f.completed = false)
    (hl : ∃ l ∈ splitLines f.stdout, stripLine l ≠ [] ∧
      is_noise_line (stripLine l) = false ∧ is_critical_line (stripLine l) = true) :
    (check_build_status st d f).2.state = BuildState.FAILED ∧
    ∀ steps : List (Nat × FetchResult),
      (steps.all fun p => decide (¬ p.1 > st.max_duration) && !p.2.completed) = true →
      ((runStatuses (check_build_status st d f).1 steps).all
        fun b => decide (b.state = BuildState.FAILED)) = true := by
  have hcrit := check_crit_of_line st d f hinv hd hl
  constructor
  · rw [check_snd_state]
    exact check_failed_of_crit st d f hd hc hcrit
  · intro steps hsteps
    apply run_failed steps _ hcrit
    rw [check_max]
    exact hsteps

theorem claim_C3_witness :
    ErrInv (initState [] 3600).errors ∧
    ¬ (0 : Nat) > (initState [] 3600).max_duration ∧
    (check_build_status (initState [] 3600) 0
        { stdout := "error: boom".toList, stderr := [], completed := false }).2.state =
      BuildState.FAILED :=
  ⟨by decide, by decide,
    (claim_C3_critical_forces_failed (initState [] 3600) 0
      { stdout := "error: boom".toList, stderr := [], completed := false }
      (by decide) (by decide) rfl (by decide)).1⟩

/-- Claim C4 counterexample: a session holding only a NON-critical recorded
error (a target-related warning promoted to the error list) still derives
FAILED when the completed flag is set with progress below 100 and no driver
marker — the code fails on any non-empty error list, not only critical
ones. -/
theorem claim_C4_counterexample :
    ((check_build_status (initState ["http".toList] 3600) 0
        { stdout := "packages/http/a.c: warning: unused".toList, stderr := [],
          completed := false }).1.errors.all fun e => !e.critical) = true ∧
    (check_build_status (initState ["http".toList] 3600) 0
        { stdout := "packages/http/a.c: warning: unused".toList, stderr := [],
          completed := false }).1.errors ≠ [] ∧
    (check_build_status
        (check_build_status (initState ["http".toList] 3600) 0
          { stdout := "packages/http/a.c: warning: unused".toList, stderr := [],
            completed := false }).1 1
        { stdout := [], stderr := [], completed := true }).2.state = BuildState.FAILED := by
  exact ⟨by decide, by decide, by decide⟩

/-- Claim C4 (amended): with the completed flag true (and within the
deadline) the phase is COMPLETED if progress reached 100 or the
final-target marker was seen in the chunk; otherwise it is FAILED if and
only if the recorded error list is non-empty — critical or not; otherwise
COMPLETED. -/
theorem claim_C4_completed_derivation (st : MonitorState) (d : Nat) (f : FetchResult)
    (hd : ¬ d > st.max_duration) (hc : f.completed = true) :
    ((check_build_status st d f).2.state = BuildState.FAILED ↔
      (containsLit "built target driver".toList (lowerStr f.stdout) = false ∧
        (check_build_status st d f).1.current_progress < 100 ∧
        (check_build_status st d f).1.errors ≠ [])) ∧
    ((check_build_status st d f).2.state = BuildState.COMPLETED ∨
      (check_build_status st d f).2.state = BuildState.FAILED) := by
  have hst := check_state_eq st d f hd
  rw [hc] at hst
  rw [check_snd_state, hst]
  exact update_completed_char (check_build_status st d f).1.errors
    (check_build_status st d f).1.current_progress f.stdout

theorem claim_C4_witness :
    ({ stdout := [], stderr := [], completed := true } : FetchResult).completed = true ∧
    ((check_build_status (initState [] 3600) 0
        { stdout := [], stderr := [], completed := true }).2.state = BuildState.COMPLETED ∨
      (check_build_status (initState [] 3600) 0
        { stdout := [], stderr := [], completed := true }).2.state = BuildState.FAILED) :=
  ⟨rfl, (claim_C4_completed_derivation (initState [] 3600) 0
    { stdout := [], stderr := [], completed := true } (by decide) rfl).2⟩

/-- Claim C5 counterexample: noise filtering happens only inside signal
extraction — a line matching the libwebsockets noise pattern still drives
activity detection (it contains "cmake"), and removing it flips the
activity boolean, refuting "no influence on activity detection". -/
theorem claim_C5_counterexample :
    is_noise_line (stripLine "warning: libwebsockets cmake".toList) = true ∧
    detect_build_activity "warning: libwebsockets cmake".toList = true ∧
    detect_build_activity [] = false := by
  exact ⟨by decide, by decide, by decide⟩

/-- Claim C5 (amended): a line matching a noise pattern is discarded before
signal classification and never appears among the retained errors or
warnings; noise suppression does not extend to activity detection or
progress extraction, which scan the unfiltered chunk. -/
theorem claim_C5_noise_not_retained (focus : List Str) (errs : List ErrEntry)
    (ws : List WarnEntry) (out : Str) :
    ((filter_errors_and_warnings focus errs ws out).1.all
        fun e => !is_noise_line e.message) = true ∧
    ((filter_errors_and_warnings focus errs ws out).2.all
        fun w => !is_noise_line w.message) = true := by
  constructor
  · rw [List.all_eq_true]
    intro e he
    have h := (filter_fst_mem focus errs ws out e he).2.1
    simp [h]
  · rw [filter_snd]
    rfl

/-- Claim C6: once the elapsed time exceeds the configured maximum, the
call returns TIMEOUT immediately — the result is identical for every fetch
outcome, no accumulated field changes — and, time being monotone, every
subsequent call returns TIMEOUT as well. -/
theorem claim_C6_timeout (st : MonitorState) (d : Nat) (f : FetchResult)
    (hd : d > st.max_duration) :
    (check_build_status st d f).1 = { st with state := BuildState.TIMEOUT } ∧
    (check_build_status st d f).2 =
      { state := BuildState.TIMEOUT, progress := st.current_progress,
        packages_built := st.packages_built, packages_total := st.focus_packages,
        errors := st.errors, warnings := st.warnings, duration := d } ∧
    (∀ f' : FetchResult, check_build_status st d f' = check_build_status st d f) ∧
    (∀ (d' : Nat) (f' : FetchResult), d ≤ d' →
      (check_build_status (check_build_status st d f).1 d' f').2.state = BuildState.TIMEOUT ∧
      (check_build_status (check_build_status st d f).1 d' f').1 =
        { st with state := BuildState.TIMEOUT }) := by
  refine ⟨by simp [check_build_status, hd], by simp [check_build_status, hd], ?_, ?_⟩
  · intro f'
    simp [check_build_status, hd]
  · intro d' f' hdd
    have hd' : d' > st.max_duration := lt_of_lt_of_le hd hdd
    constructor
    · simp [check_build_status, hd, hd']
    · simp [check_build_status, hd, hd']

theorem claim_C6_witness :
    (6 : Nat) > (initState [] 5).max_duration ∧
    (check_build_status (initState [] 5) 6
        { stdout := [], stderr := [], completed := false }).1 =
      { initState [] 5 with state := BuildState.TIMEOUT } :=
  ⟨by decide, (claim_C6_timeout (initState [] 5) 6
    { stdout := [], stderr := [], completed := false } (by decide)).1⟩

/-- Claim C7: a tracked target transitions at most once from pending to
built — the built list only ever grows at its end (never loses an element,
keeping insertion order), stays duplicate-free, and a package already in
the built list is never reported in the newly-completed list again. -/
theorem claim_C7_targets (st : MonitorState) (d : Nat) (f : FetchResult)
    (h : st.packages_built.Nodup) :
    (∃ t, (extract_package_completions st.focus_packages st.packages_built f.stdout).2 =
      st.packages_built ++ t) ∧
    (extract_package_completions st.focus_packages st.packages_built f.stdout).2.Nodup ∧
    ((extract_package_completions st.focus_packages st.packages_built f.stdout).1.all
      fun p => !(decide (p ∈ st.packages_built))) = true ∧
    (∃ t, (check_build_status st d f).1.packages_built = st.packages_built ++ t) ∧
    (check_build_status st d f).1.packages_built.Nodup := by
  obtain ⟨hext, hnd, hall⟩ :=
    extract_package_completions_spec st.focus_packages st.packages_built f.stdout
  refine ⟨hext, hnd h, hall, ?_, ?_⟩
  · rcases check_built_cases st d f with hcase | hcase
    · exact ⟨[], by rw [hcase, List.append_nil]⟩
    · obtain ⟨t, ht⟩ := hext
      exact ⟨t, by rw [hcase, ht]⟩
  · rcases check_built_cases st d f with hcase | hcase
    · rw [hcase]; exact h
    · rw [hcase]; exact hnd h

theorem claim_C7_witness :
    (check_build_status (initState ["http".toList] 3600) 0
        { stdout := "Built target package_http".toList, stderr := [],
          completed := false }).1.packages_built.Nodup ∧
    ((extract_package_completions
        (check_build_status (initState ["http".toList] 3600) 0
          { stdout := "Built target package_http".toList, stderr := [],
            completed := false }).1.focus_packages
        (check_build_status (initState ["http".toList] 3600) 0
          { stdout := "Built target package_http".toList, stderr := [],
            completed := false }).1.packages_built
        "Built target package_http".toList).1.all
      fun p => !(decide (p ∈ (check_build_status (initState ["http".toList] 3600) 0
        { stdout := "Built target package_http".toList, stderr := [],
          completed := false }).1.packages_built))) = true :=
  ⟨by decide,
    (claim_C7_targets
      (check_build_status (initState ["http".toList] 3600) 0
        { stdout := "Built target package_http".toList, stderr := [],
          completed := false }).1 1
      { stdout := "Built target package_http".toList, stderr := [], completed := false }
      (by decide)).2.2.1⟩

/-- Claim C8: within a non-timed-out check, detected activity resets the
interval index and the inactivity counter to zero regardless of the prior
streak; absence of activity increments the counter and leaves the index
alone; and each `get_next_wait_interval` call made while the counter
exceeds 2 advances the index by exactly one step, capped at the last index
of the fixed interval list, returning the interval at the resulting
index. -/
theorem claim_C8_scheduler (st : MonitorState) (d : Nat) (f : FetchResult)
    (hd : ¬ d > st.max_duration) :
    (detect_build_activity f.stdout = true →
      (check_build_status st d f).1.current_interval_index = 0 ∧
      (check_build_status st d f).1.consecutive_no_activity = 0) ∧
    (detect_build_activity f.stdout = false →
      (check_build_status st d f).1.consecutive_no_activity =
        st.consecutive_no_activity + 1 ∧
      (check_build_status st d f).1.current_interval_index =
        st.current_interval_index) ∧
    (∀ s : MonitorState, s.consecutive_no_activity > 2 →
      (get_next_wait_interval s).1.current_interval_index =
        min (s.current_interval_index + 1) (wait_intervals.length - 1) ∧
      (get_next_wait_interval s).2 =
        wait_intervals.getD (min (s.current_interval_index + 1) (wait_intervals.length - 1)) 0) ∧
    (∀ s : MonitorState, ¬ s.consecutive_no_activity > 2 →
      (get_next_wait_interval s).1.current_interval_index = s.current_interval_index ∧
      (get_next_wait_interval s).2 = wait_intervals.getD s.current_interval_index 0) := by
  refine ⟨?_, ?_, ?_, ?_⟩
  · intro h
    rw [check_not_timeout st d f hd]
    exact checkCore_activity_pos st f h
  · intro h
    rw [check_not_timeout st d f hd]
    exact checkCore_activity_neg st f h
  · intro s hs
    constructor <;> simp [get_next_wait_interval, hs]
  · intro s hs
    constructor <;> simp [get_next_wait_interval, hs]

theorem claim_C8_witness :
    detect_build_activity ([] : Str) = false ∧
    (check_build_status (initState [] 3600) 0
        { stdout := [], stderr := [], completed := false }).1.consecutive_no_activity =
      (initState [] 3600).consecutive_no_activity + 1 :=
  ⟨by decide,
    (((claim_C8_scheduler (initState [] 3600) 0
      { stdout := [], stderr := [], completed := false } (by decide)).2.1) (by decide)).1⟩

/-- Claim C9 counterexample: a fetch timeout produces the stderr text
"Timeout getting bash output", which contains no "error" substring, so the
transport failure is not recorded at all — refuting "recorded as a
non-critical diagnostic by default". -/
theorem claim_C9_counterexample :
    (check_build_status (initState [] 3600) 0
        { stdout := [], stderr := "Timeout getting bash output".toList,
          completed := false }).1.errors = [] ∧
    (check_build_status (initState [] 3600) 0
        { stdout := [], stderr := "Timeout getting bash output".toList,
          completed := false }).1.warnings = [] := by
  exact ⟨by decide, by decide⟩

/-- Claim C9 (amended): a transport error is recorded only when its text
contains "error" (case-insensitively), and then always as a CRITICAL entry
— which forces the phase to FAILED whenever the completed flag is false;
transport errors whose text lacks "error" are not recorded at all. -/
theorem claim_C9_transport (st : MonitorState) (d : Nat) (f : FetchResult)
    (hd : ¬ d > st.max_duration) :
    ((!f.stderr.isEmpty && containsLit "error".toList (lowerStr f.stderr)) = true →
      ({ message := f.stderr, package_related := none, critical := true } : ErrEntry) ∈
        (check_build_status st d f).1.errors ∧
      (f.completed = false → (check_build_status st d f).2.state = BuildState.FAILED)) ∧
    ((!f.stderr.isEmpty && containsLit "error".toList (lowerStr f.stderr)) = false →
      (check_build_status st d f).1.errors =
        st.errors ++
          (filter_errors_and_warnings st.focus_packages st.errors st.warnings f.stdout).1) := by
  constructor
  · intro h
    have herr : ({ message := f.stderr, package_related := none, critical := true } : ErrEntry) ∈
        (check_build_status st d f).1.errors := by
      rw [check_not_timeout st d f hd]
      show _ ∈ (checkCore st f).errors
      rw [checkCore_errors_pos st f h]
      simp
    refine ⟨herr, ?_⟩
    intro hc
    rw [check_snd_state]
    apply check_failed_of_crit st d f hd hc
    rw [List.any_eq_true]
    exact ⟨_, herr, rfl⟩
  · intro h
    rw [check_not_timeout st d f hd]
    show (checkCore st f).errors = _
    exact checkCore_errors_neg st f h

theorem claim_C9_witness :
    (!("error: fetch failed".toList : Str).isEmpty &&
      containsLit "error".toList (lowerStr "error: fetch failed".toList)) = true ∧
    ({ message := "error: fetch failed".toList, package_related := none,
        critical := true } : ErrEntry) ∈
      (check_build_status (initState [] 3600) 0
        { stdout := [], stderr := "error: fetch failed".toList,
          completed := false }).1.errors :=
  ⟨by decide,
    ((claim_C9_transport (initState [] 3600) 0
      { stdout := [], stderr := "error: fetch failed".toList, completed := false }
      (by decide)).1 (by decide)).1⟩

/-- Claim C10: signal extraction never returns a plain warning — the
plain-warning branch requires a line that is both a warning and
target-related, which the error-retention branch just before it already
captures — so the session's warning list never grows from chunk
classification. -/
theorem claim_C10_no_plain_warnings :
    (∀ (focus : List Str) (errs : List ErrEntry) (ws : List WarnEntry) (out : Str),
      (filter_errors_and_warnings focus errs ws out).2 = []) ∧
    (∀ (st : MonitorState) (d : Nat) (f : FetchResult),
      (check_build_status st d f).1.warnings = st.warnings ∧
      (check_build_status st d f).2.warnings = st.warnings) := by
  constructor
  · intro focus errs ws out
    exact filter_snd focus errs ws out
  · intro st d f
    refine ⟨check_warnings_eq st d f, ?_⟩
    rw [check_snd_warnings]
    exact check_warnings_eq st d f
